import Mathlib

set_option maxHeartbeats 1000000
set_option linter.unusedVariables false

/-!
A shallow embedding of `src/script.js` of the `live_object_detector`
repository, together with theorems settling the specification claims.

Conventions: JS numbers the code treats as floats (slider threshold,
detection scores, video timestamps) are modelled as rationals built with
`mkRat`; pixel coordinates are integers; byte buffers are `List Nat`.
DOM plumbing that only toggles CSS classes or text is represented by
explicit boolean/string/number fields of the state records.  The external
collaborators (`fetch`, `ObjectDetector.createFromOptions`,
`detectForVideo`, `getUserMedia`, `enumerateDevices`) enter the model as
explicit environment parameters.  `await` points are sequenced by ordinary
data flow, matching the single-threaded cooperative execution of the page.
-/

/- ===== Model Fetcher: `downloadModelWithProgress` (script.js 74-115) ===== -/

/-- JS `Math.round((loaded / total) * 100)` for natural `loaded`, `total`
with `total > 0`: `Math.round` rounds half toward positive infinity, so this
is `⌊loaded * 100 / total + 1/2⌋ = (loaded * 200 + total) / (2 * total)` in
natural floor division.  (For `total = 0` the JS value would not be finite;
no claim depends on the percentage there.) -/
def jsRoundPercent (loaded total : Nat) : Nat := (loaded * 200 + total) / (2 * total)

/-- JS `Math.round(q * 100)` on a rational `q`:
`⌊100 q + 1/2⌋ = ⌊(200 num + den) / (2 den)⌋`, computed with integer floor
division on the numerator and (positive) denominator of `q`. -/
def jsRoundTimes100 (q : ℚ) : Int := Int.fdiv (200 * q.num + q.den) (2 * q.den)

/-- One argument object passed to the `onProgress` callback inside
`downloadModelWithProgress` (`{ percentage, loaded, total }`;
`percentage = none` models JS `null`). -/
structure ProgressEvent where
  percentage : Option Nat
  loaded : Nat
  total : Nat
deriving DecidableEq, Repr

/-- The parts of a `fetch` response that `downloadModelWithProgress`
consumes: `response.ok`, `response.statusText`, the `Content-Length` header
already parsed to a number (`none` when the header is absent), and the byte
chunks delivered in order by `response.body.getReader()`.  The idealization
`contentLength : Option Nat` elides `parseInt` of the raw header string. -/
structure Response where
  ok : Bool
  statusText : String
  contentLength : Option Nat
  chunks : List (List Nat)
deriving DecidableEq, Repr

/-- Outcome of one run of `downloadModelWithProgress`: the thrown
`Error` when `response.ok` is false; the `RangeError` thrown by
`Uint8Array.set` when a chunk would be written past the end of the
allocated buffer; or the returned buffer.  Outcomes of the streaming path
carry the list of progress events that were delivered to `onProgress`. -/
inductive DLOutcome where
  | fetchError (msg : String)
  | rangeError (events : List ProgressEvent)
  | ok (buffer : List Nat) (events : List ProgressEvent)
deriving DecidableEq, Repr

/-- JS `buf.set(chunk, off)` on a `Uint8Array`: overwrite `buf` at offset
`off` with `chunk`; JS throws a `RangeError` (here: `none`) when the chunk
does not fit inside the existing length. -/
def writeAt (buf : List Nat) (off : Nat) (chunk : List Nat) : Option (List Nat) :=
  if off + chunk.length ≤ buf.length then
    some (buf.take off ++ chunk ++ buf.drop (off + chunk.length))
  else none

/-- The copy loop of `downloadModelWithProgress`: successive
`modelBuffer.set(chunk, offset)` calls with `offset` advanced by each
chunk's length. -/
def setChunksAux (buf : List Nat) (off : Nat) : List (List Nat) → Option (List Nat)
  | [] => some buf
  | c :: cs =>
    match writeAt buf off c with
    | none => none
    | some b => setChunksAux b (off + c.length) cs

/-- JS `new Uint8Array(total)` (zero-filled) followed by the chunk copy loop. -/
def setChunks (total : Nat) (chunks : List (List Nat)) : Option (List Nat) :=
  setChunksAux (List.replicate total 0) 0 chunks

/-- The progress events fired by the read loop: after each chunk, `loaded`
has been advanced and `percentage = Math.round(loaded / total * 100)`. -/
def progressEventsAux (total : Nat) (loaded : Nat) : List (List Nat) → List ProgressEvent
  | [] => []
  | c :: cs =>
    let loaded' := loaded + c.length
    { percentage := some (jsRoundPercent loaded' total),
      loaded := loaded', total := total } :: progressEventsAux total loaded' cs

/-- The function `downloadModelWithProgress(modelPath, onProgress)` from
`src/script.js` lines 74-115, run against a given response.
With no `Content-Length` header it fires one `{percentage: null}` event and
returns the whole body (`response.arrayBuffer()`, i.e. the concatenation of
all chunks).  With a header it streams the chunks, firing a progress event
per chunk, then allocates `new Uint8Array(total)` from the *declared* total
and copies the chunks into it.  The `modelPath` parameter is not mentioned
in the thrown error message, exactly as in the source. -/
def downloadModelWithProgress (modelPath : String) (resp : Response) : DLOutcome :=
  if resp.ok = false then
    DLOutcome.fetchError ("Failed to fetch model: " ++ resp.statusText)
  else
    match resp.contentLength with
    | none => DLOutcome.ok resp.chunks.flatten [{ percentage := none, loaded := 0, total := 0 }]
    | some total =>
      let events := progressEventsAux total 0 resp.chunks
      match setChunks total resp.chunks with
      | none => DLOutcome.rangeError events
      | some buf => DLOutcome.ok buf events

/-- Whether `needle` occurs as a contiguous run starting at the head of
`hay` (JS `String.prototype.startsWith` on char lists). -/
def beginsWith (hay needle : List Char) : Bool :=
  match needle, hay with
  | [], _ => true
  | _ :: _, [] => false
  | n :: ns, h :: t => (h == n) && beginsWith t ns

/-- Whether `needle` occurs contiguously anywhere inside `hay`
(JS `String.prototype.includes` on char lists). -/
def occursIn (needle : List Char) : List Char → Bool
  | [] => needle.isEmpty
  | h :: t => beginsWith (h :: t) needle || occursIn needle t

/- ===== Detector Manager: `createOrUpdateDetector` (script.js 127-205) ===== -/

/-- An `ObjectDetector` engine instance as observable through this program:
the build parameters it was created from, the model byte buffer it was
given, and a ghost identity `id` (allocation order) used to reason about
which instance is published/disposed. -/
structure Detector where
  id : Nat
  modelPath : String
  maxResults : Int
  scoreThreshold : ℚ
  buffer : List Nat
deriving DecidableEq, Repr

/-- External collaborators of the detector pipeline: `net` is the network
(`fetch`), giving the response for a model path; `buildOk` abstracts
whether `ObjectDetector.createFromOptions` succeeds on a given buffer
(construction failure, e.g. malformed buffer). -/
structure AppEnv where
  net : String → Response
  buildOk : List Nat → Bool

/-- The error that escapes one `createOrUpdateDetector` invocation to its
caller (in JS: the rejected promise / thrown exception). -/
inductive RebuildError where
  | fetchError (msg : String)
  | rangeError
  | buildError
deriving DecidableEq, Repr

/-- Module-level state of `script.js` relevant to the detector pipeline:
the current control values (`modelSelect.value`, the two slider values,
already parsed), the displayed numeric labels, the last *applied* settings
(`lastModel`, `lastMaxResults`, `lastThreshold`), and the published
detector reference `objectDetector`.  Ghost fields: `nextId` numbers built
engine instances; `disposedIds` records dispose/close calls on instances —
the source never performs any, so no code path appends to it; `fetches`
counts network reads (`fetch` calls); `progressFired` counts deliveries of
the `onProgress` callback. -/
structure St where
  modelSelect : String
  maxResultsSlider : Int
  thresholdSlider : ℚ
  maxResultsValue : Int
  thresholdValue : Int
  lastModel : String
  lastMaxResults : Int
  lastThreshold : ℚ
  objectDetector : Option Detector
  nextId : Nat
  disposedIds : List Nat
  fetches : Nat
  progressFired : Nat
deriving DecidableEq, Repr

/-- The function `createOrUpdateDetector` from `src/script.js` lines 127-205.
It reads the current control values, records them as the last-applied
settings and updates the labels *before* downloading, downloads the model
via `downloadModelWithProgress` (the progress-bar DOM updates inside the
`onProgress` closure are elided; the ghost counters record the calls), then
constructs the detector from the buffer and publishes it by assigning the
module variable `objectDetector`.  Any error thrown on the way propagates
to the caller (second component).  Note: the previous detector instance is
never disposed — the source has no `close`/dispose call. -/
def createOrUpdateDetector (env : AppEnv) (s : St) : St × Option RebuildError :=
  let modelPath := s.modelSelect
  let maxResults := s.maxResultsSlider
  let scoreThreshold := s.thresholdSlider
  let s1 : St := { s with
    lastModel := modelPath, lastMaxResults := maxResults, lastThreshold := scoreThreshold,
    maxResultsValue := maxResults, thresholdValue := jsRoundTimes100 scoreThreshold }
  match downloadModelWithProgress modelPath (env.net modelPath) with
  | DLOutcome.fetchError m =>
    ({ s1 with fetches := s1.fetches + 1 }, some (RebuildError.fetchError m))
  | DLOutcome.rangeError evs =>
    ({ s1 with fetches := s1.fetches + 1, progressFired := s1.progressFired + evs.length },
     some RebuildError.rangeError)
  | DLOutcome.ok buf evs =>
    let s2 : St := { s1 with
      fetches := s1.fetches + 1, progressFired := s1.progressFired + evs.length }
    if env.buildOk buf then
      let det : Detector :=
        { id := s2.nextId, modelPath := modelPath, maxResults := maxResults,
          scoreThreshold := scoreThreshold, buffer := buf }
      ({ s2 with objectDetector := some det, nextId := s2.nextId + 1 }, none)
    else (s2, some RebuildError.buildError)

/- ===== Control surface events (script.js 210-237) ===== -/

/-- A user event on the two sliders: an intermediate drag tick (`input`,
which also moves the slider's own value) or a settle/release (`change`). -/
inductive SliderEvent where
  | inputMax (v : Int)
  | inputThreshold (v : ℚ)
  | changeCommit
deriving DecidableEq, Repr

/-- The handler `handleSliderChange` (script.js 220-227): on `change`, rebuild only if
the committed pair differs from the last applied snapshot.  The boolean
records whether a rebuild was triggered. -/
def handleSliderChange (env : AppEnv) (s : St) : St × Bool :=
  let newMaxResults := s.maxResultsSlider
  let newThreshold := s.thresholdSlider
  if newMaxResults ≠ s.lastMaxResults ∨ newThreshold ≠ s.lastThreshold then
    ((createOrUpdateDetector env s).1, true)
  else (s, false)

/-- One slider event processed by the listeners of script.js 210-230:
`input` listeners only copy the slider's value into the displayed label;
`change` runs `handleSliderChange`. -/
def sliderEventStep (env : AppEnv) (ev : SliderEvent) (s : St) : St × Bool :=
  match ev with
  | SliderEvent.inputMax v => ({ s with maxResultsSlider := v, maxResultsValue := v }, false)
  | SliderEvent.inputThreshold v =>
    ({ s with thresholdSlider := v, thresholdValue := jsRoundTimes100 v }, false)
  | SliderEvent.changeCommit => handleSliderChange env s

/-- The handler `handleModelChange` (script.js 232-236): rebuild only if the selected
model differs from the last applied one. -/
def handleModelChange (env : AppEnv) (s : St) : St × Bool :=
  if s.modelSelect ≠ s.lastModel then ((createOrUpdateDetector env s).1, true) else (s, false)

/- ===== Device Manager: `enableWebcam` / `switchCamera` (script.js 305-439) ===== -/

/-- A `MediaStreamTrack` as used here: only its stopped flag matters. -/
structure MediaStreamTrack where
  stopped : Bool
deriving DecidableEq, Repr

/-- A `MediaStream`: its tracks, plus the device it was captured from
(JS: `getVideoTracks()[0].getSettings().deviceId`). -/
structure MediaStream where
  deviceId : String
  tracks : List MediaStreamTrack
deriving DecidableEq, Repr

/-- JS `stream.getTracks().forEach(track => track.stop())`. -/
def stopAllTracks (m : MediaStream) : MediaStream :=
  { m with tracks := m.tracks.map fun t => { t with stopped := true } }

/-- A stream is live when some track has not been stopped. -/
def MediaStream.isLive (m : MediaStream) : Bool := m.tracks.any fun t => !t.stopped

/-- All tracks of the stream are in the stopped state. -/
def MediaStream.allStopped (m : MediaStream) : Bool := m.tracks.all fun t => t.stopped

/-- One entry of `navigator.mediaDevices.enumerateDevices()`. -/
structure DeviceInfo where
  deviceId : String
  kind : String
  label : String
  facingMode : Option String
deriving DecidableEq, Repr

/-- The constraint object built in `enableWebcam` (script.js 344-350):
`{video: {width: 640, height: 480, ...(deviceId exact when set)}}`. -/
structure Constraints where
  width : Int
  height : Int
  deviceId : Option String
deriving DecidableEq, Repr

/-- A DOMException from `getUserMedia`: its `name` and `message`. -/
structure CamError where
  name : String
  message : String
deriving DecidableEq, Repr

/-- Camera platform collaborators: `gum` is
`navigator.mediaDevices.getUserMedia`, `devices` the (fixed) result of
`enumerateDevices()`. -/
structure CamEnv where
  gum : Constraints → Except CamError MediaStream
  devices : List DeviceInfo

/-- Module-level state of `script.js` relevant to the camera lifecycle.
`currentStream` is the JS variable of the same name; `previousStreams` is a
ghost log of stream objects that `currentStream` stopped referencing
(in JS they become unreferenced garbage), kept so liveness of *all* streams
ever acquired can be stated.  `loadingMessage` is the text content of the
main loader; `acquisitions` is a ghost counter of `getUserMedia` calls. -/
structure CamSt where
  previousStreams : List MediaStream
  currentStream : Option MediaStream
  currentDeviceId : Option String
  isVideoFlipped : Bool
  cameraOptions : List String
  loadingVisible : Bool
  loadingMessage : String
  permissionOverlayVisible : Bool
  liveViewVisible : Bool
  overlayVisible : Bool
  acquisitions : Nat
deriving DecidableEq, Repr

/-- Step 1 of `enableWebcam` (script.js 336-341): stop every track of the
existing stream, if any.  The stream object itself stays referenced by
`currentStream`. -/
def webcamStopPhase (s : CamSt) : CamSt :=
  { s with currentStream := s.currentStream.map stopAllTracks }

/-- JS `devices.filter(d => d.kind === 'videoinput')`. -/
def videoInputs (devices : List DeviceInfo) : List DeviceInfo :=
  devices.filter fun d => d.kind == "videoinput"

/-- JS `devices.find(d => d.deviceId === id && d.kind === 'videoinput')`. -/
def findDevice (devices : List DeviceInfo) (idStr : String) : Option DeviceInfo :=
  devices.find? fun d => (d.deviceId == idStr) && (d.kind == "videoinput")

/-- JS `device && device.facingMode === 'user'` — flip exactly when the found
device's facing mode is `user`; `environment` or unknown gives `false`. -/
def facingIsUser (d : Option DeviceInfo) : Bool :=
  match d with
  | some dev => dev.facingMode == some "user"
  | none => false

/-- Success path of `enableWebcam` (script.js 353-381): save the new stream
(the replaced stream object becomes unreferenced — logged in
`previousStreams`), and on the very first acquisition populate the camera
list (modelled as the video-input device ids; option label text and the
`display` toggle of the container are elided), sync `currentDeviceId` to the
active stream's device, and derive the initial flip state from that
device's facing mode.  Finally hide the loader and permission overlay and
show the live view.  The `video.srcObject` assignment and the
`loadeddata` listener rebinding are elided (render-loop scheduling). -/
def webcamSuccess (env : CamEnv) (stream : MediaStream) (s : CamSt) : CamSt :=
  let s1 : CamSt := { s with
    acquisitions := s.acquisitions + 1,
    previousStreams := s.previousStreams ++ s.currentStream.toList,
    currentStream := some stream }
  let s2 : CamSt :=
    if s1.cameraOptions.length = 0 then
      { s1 with
        cameraOptions := (videoInputs env.devices).map DeviceInfo.deviceId,
        currentDeviceId := some stream.deviceId,
        isVideoFlipped := facingIsUser (findDevice env.devices stream.deviceId) }
    else s1
  { s2 with loadingVisible := false, permissionOverlayVisible := false, liveViewVisible := true }

/-- Failure path of `enableWebcam` (script.js 383-401): a permission error
(`NotAllowedError` / `PermissionDeniedError`) hides the loader, shows the
live view container and the dedicated permission overlay, and leaves the
loader text alone; any other error takes the generic path, writing the
error text into the loader and showing it. -/
def webcamFailure (e : CamError) (s : CamSt) : CamSt :=
  if e.name = "NotAllowedError" ∨ e.name = "PermissionDeniedError" then
    { s with
      acquisitions := s.acquisitions + 1,
      loadingVisible := false, liveViewVisible := true, permissionOverlayVisible := true }
  else
    { s with
      acquisitions := s.acquisitions + 1,
      loadingMessage := "Could not access webcam: " ++ e.message
        ++ ". Please check device and permissions.",
      loadingVisible := true, liveViewVisible := false }

/-- Steps 2-3 of `enableWebcam`: build the constraints from
`currentDeviceId` and call `getUserMedia` once, then take the success or
failure path. -/
def webcamAcquirePhase (env : CamEnv) (s : CamSt) : CamSt :=
  match env.gum { width := 640, height := 480, deviceId := s.currentDeviceId } with
  | Except.ok stream => webcamSuccess env stream s
  | Except.error e => webcamFailure e s

/-- The function `enableWebcam` (script.js 335-403): first stop all tracks of the
current stream, then attempt the new acquisition. -/
def enableWebcam (env : CamEnv) (s : CamSt) : CamSt :=
  webcamAcquirePhase env (webcamStopPhase s)

/-- The function `switchCamera` (script.js 305-333): select the new device, show the
switching overlay, auto-set the flip state from the selected device's
facing mode (the `enumerateDevices` try/catch is elided — enumeration is a
total environment here), re-run `enableWebcam`, then hide the overlay. -/
def switchCamera (env : CamEnv) (selectedDeviceId : String) (s : CamSt) : CamSt :=
  let sa : CamSt := { s with currentDeviceId := some selectedDeviceId, overlayVisible := true }
  let sb : CamSt :=
    { sa with isVideoFlipped := facingIsUser (findDevice env.devices selectedDeviceId) }
  let sc := enableWebcam env sb
  { sc with overlayVisible := false }

/-- The `permissionButton` click listener (script.js 247-257): hide the
permission overlay, show the loader with a request message, and re-invoke
`enableWebcam` exactly once. -/
def permissionButtonClick (env : CamEnv) (s : CamSt) : CamSt :=
  let s1 : CamSt := { s with
    permissionOverlayVisible := false,
    loadingMessage := "Requesting camera permission...",
    loadingVisible := true }
  enableWebcam env s1

/-- All stream objects ever acquired: the replaced ones plus the one
currently referenced. -/
def CamSt.allStreams (s : CamSt) : List MediaStream :=
  s.previousStreams ++ s.currentStream.toList

/-- Number of live streams among all stream objects ever acquired. -/
def liveStreamCount (s : CamSt) : Nat :=
  (s.allStreams.filter MediaStream.isLive).length

/- ===== Detection/Render loop: `predictWebcam` (script.js 444-498) ===== -/

/-- JS `detection.boundingBox` (pixels, frame-relative, unflipped). -/
structure BoundingBox where
  originX : Int
  originY : Int
  width : Int
  height : Int
deriving DecidableEq, Repr

/-- One entry of `detection.categories`. -/
structure DetCategory where
  categoryName : String
  score : ℚ
deriving DecidableEq, Repr

/-- One detection returned by `detectForVideo`. -/
structure Detection where
  boundingBox : BoundingBox
  categories : List DetCategory
deriving DecidableEq, Repr

/-- What one loop iteration draws for one detection: the stroked rectangle
(at the display-space x) and the label text.  The label background box and
colors are elided. -/
structure DrawnBox where
  x : Int
  y : Int
  w : Int
  h : Int
  label : String
deriving DecidableEq, Repr

/-- The label string
`` `${detection.categories[0].categoryName} (${Math.round(score * 100)}%)` ``.
The source indexes `categories[0]` unconditionally; the engine's contract
(spec data model) guarantees a non-empty `categories`, modelled here with a
default for the empty case. -/
def labelText (det : Detection) : String :=
  let c := det.categories.getD 0 { categoryName := "", score := 0 }
  c.categoryName ++ " (" ++ toString (jsRoundTimes100 c.score) ++ "%)"

/-- The per-detection drawing of script.js 461-493: `true_x` is the
originX, mirrored (`canvas.width - originX - width`) when the video is
flipped. -/
def drawDetection (isVideoFlipped : Bool) (canvasWidth : Int) (det : Detection) : DrawnBox :=
  let trueX :=
    if isVideoFlipped then canvasWidth - det.boundingBox.originX - det.boundingBox.width
    else det.boundingBox.originX
  { x := trueX, y := det.boundingBox.originY,
    w := det.boundingBox.width, h := det.boundingBox.height, label := labelText det }

/-- Loop-owned state: `lastVideoTime`, the canvas pixel size, and what the
canvas currently shows (the boxes drawn by the last processed frame). -/
structure LoopSt where
  lastVideoTime : ℚ
  canvasWidth : Int
  canvasHeight : Int
  drawn : List DrawnBox
deriving DecidableEq, Repr

/-- One iteration of `predictWebcam` (script.js 444-498): sync the canvas
size to the video's native size (the source guards the assignments with an
inequality test — same resulting state), and if the video timestamp
advanced and a detector is published, run it and redraw; otherwise leave
the canvas as is.  `detect` is the engine's `detectForVideo`, abstracted as
a function of the detector instance, the frame (represented by its
timestamp) and the wall-clock `Date.now()`; the `requestAnimationFrame`
re-scheduling is the loop structure itself and is elided. -/
def predictWebcam (detect : Detector → ℚ → Int → List Detection)
    (videoWidth videoHeight : Int) (currentTime : ℚ) (now : Int)
    (isVideoFlipped : Bool) (objectDetector : Option Detector)
    (ls : LoopSt) : LoopSt :=
  let ls1 : LoopSt := { ls with canvasWidth := videoWidth, canvasHeight := videoHeight }
  if currentTime = ls1.lastVideoTime then ls1
  else
    let ls2 : LoopSt := { ls1 with lastVideoTime := currentTime }
    match objectDetector with
    | none => ls2
    | some d =>
      let results := detect d currentTime now
      { ls2 with drawn := results.map (drawDetection isVideoFlipped ls1.canvasWidth) }

/- ===== Concrete fixtures for witnesses and counterexamples ===== -/

/-- A response with success status, a declared `Content-Length` of 5, but
only 3 bytes actually streamed. -/
def respWrongLen : Response :=
  { ok := true, statusText := "OK", contentLength := some 5, chunks := [[1, 2, 3]] }

/-- A response with no `Content-Length` header and body bytes `[9, 8, 7]`. -/
def respNoLen : Response :=
  { ok := true, statusText := "OK", contentLength := none, chunks := [[9], [8, 7]] }

/-- A failed response (HTTP 404). -/
def respNotFound : Response :=
  { ok := false, statusText := "Not Found", contentLength := none, chunks := [] }

/-- A network that always serves `respNoLen`, with builds succeeding. -/
def envOK : AppEnv := { net := fun _ => respNoLen, buildOk := fun _ => true }

/-- Same network, but `ObjectDetector.createFromOptions` fails. -/
def envBuildFail : AppEnv := { net := fun _ => respNoLen, buildOk := fun _ => false }

/-- Initial module state right before the first `createOrUpdateDetector`. -/
def st0 : St :=
  { modelSelect := "efficientdet_lite0.tflite",
    maxResultsSlider := 5, thresholdSlider := mkRat 1 2,
    maxResultsValue := 5, thresholdValue := 50,
    lastModel := "", lastMaxResults := -1, lastThreshold := mkRat (-1) 1,
    objectDetector := none, nextId := 0, disposedIds := [],
    fetches := 0, progressFired := 0 }

/-- A previously built and published detector instance. -/
def dummyDetector : Detector :=
  { id := 7, modelPath := "old.tflite", maxResults := 3,
    scoreThreshold := mkRat 1 4, buffer := [1, 1] }

/-- State with a prior detector active. -/
def stPrior : St := { st0 with objectDetector := some dummyDetector }

/-- The detector that `envOK` lets the first call on `st0` build. -/
def builtDetector0 : Detector :=
  { id := 0, modelPath := "efficientdet_lite0.tflite", maxResults := 5,
    scoreThreshold := mkRat 1 2, buffer := [9, 8, 7] }

/-- The spec's example detection: `boundingBox {originX = 10, width = 50}`. -/
def detExample : Detection :=
  { boundingBox := { originX := 10, originY := 20, width := 50, height := 30 },
    categories := [{ categoryName := "person", score := mkRat 3 4 }] }

/-- An engine returning exactly the example detection on every frame. -/
def detectExample : Detector → ℚ → Int → List Detection := fun _ _ _ => [detExample]

/-- Loop state before processing a frame. -/
def loopSt0 : LoopSt :=
  { lastVideoTime := mkRat (-1) 1, canvasWidth := 0, canvasHeight := 0, drawn := [] }

/-- Stream from camera A with one live track. -/
def streamA : MediaStream := { deviceId := "camA", tracks := [{ stopped := false }] }

/-- Stream from camera B with two live tracks. -/
def streamB : MediaStream :=
  { deviceId := "camB", tracks := [{ stopped := false }, { stopped := false }] }

/-- Camera state with stream A active and the camera list populated. -/
def camSt0 : CamSt :=
  { previousStreams := [], currentStream := some streamA,
    currentDeviceId := some "camA", isVideoFlipped := false,
    cameraOptions := ["camA", "camB"],
    loadingVisible := false, loadingMessage := "",
    permissionOverlayVisible := false, liveViewVisible := true,
    overlayVisible := false, acquisitions := 1 }

/-- Platform with two cameras where selecting `camB` succeeds and anything
else reports the device missing. -/
def camEnvOK : CamEnv :=
  { gum := fun c =>
      if c.deviceId == some "camB" then Except.ok streamB
      else Except.error { name := "NotFoundError", message := "Requested device not found" },
    devices :=
      [{ deviceId := "camA", kind := "videoinput", label := "Front", facingMode := some "user" },
       { deviceId := "camB", kind := "videoinput", label := "Back",
         facingMode := some "environment" }] }

/-- Platform that denies camera permission. -/
def camEnvDenied : CamEnv :=
  { gum := fun _ =>
      Except.error { name := "NotAllowedError", message := "Permission denied" },
    devices := [] }

/- =====================  Theorems  ===================== -/

theorem writeAt_length {buf : List Nat} {off : Nat} {c : List Nat} {b : List Nat}
    (h : writeAt buf off c = some b) : b.length = buf.length := by
  unfold writeAt at h
  split at h
  · next hle =>
    cases h
    simp only [List.length_append, List.length_take, List.length_drop]
    omega
  · exact absurd h (by simp)

theorem setChunksAux_length :
    ∀ (chunks : List (List Nat)) (buf : List Nat) (off : Nat) (b : List Nat),
      setChunksAux buf off chunks = some b → b.length = buf.length := by
  intro chunks
  induction chunks with
  | nil =>
    intro buf off b h
    simp only [setChunksAux] at h
    cases h; rfl
  | cons c cs ih =>
    intro buf off b h
    simp only [setChunksAux] at h
    cases hw : writeAt buf off c with
    | none => rw [hw] at h; exact absurd h (by simp)
    | some b1 =>
      rw [hw] at h
      have h1 := ih b1 (off + c.length) b h
      rw [h1, writeAt_length hw]

theorem setChunks_length {total : Nat} {chunks : List (List Nat)} {b : List Nat}
    (h : setChunks total chunks = some b) : b.length = total := by
  have := setChunksAux_length chunks (List.replicate total 0) 0 b h
  simpa using this

/-- C1 counterexample: a successful run of `downloadModelWithProgress`
whose declared total (5) disagrees with the actually received bytes (3)
returns a buffer of length 5, not 3: the final buffer IS allocated from the
declared total, contradicting the claim. -/
theorem C1_counterexample :
    downloadModelWithProgress "model.tflite" respWrongLen
        = DLOutcome.ok [1, 2, 3, 0, 0] [{ percentage := some 60, loaded := 3, total := 5 }] ∧
      (respWrongLen.chunks.map List.length).sum = 3 ∧
      List.length [1, 2, 3, 0, 0] ≠ 3 := by
  refine ⟨by decide, by decide, by decide⟩

/-- C1 (amended): the returned buffer's length equals the sum of the
received chunk lengths only when no size header is present; when a declared
total is present the final buffer is allocated at the declared total, so
the returned length equals the declared total (and the run fails with a
`RangeError` if the received bytes overrun it). -/
theorem C1_amended_thm (modelPath : String) (resp : Response)
    (buf : List Nat) (evs : List ProgressEvent)
    (h : downloadModelWithProgress modelPath resp = DLOutcome.ok buf evs) :
    buf.length =
      (match resp.contentLength with
       | none => (resp.chunks.map List.length).sum
       | some total => total) := by
  unfold downloadModelWithProgress at h
  split at h
  · exact absurd h (by simp)
  · cases hcl : resp.contentLength with
    | none =>
      rw [hcl] at h
      cases h
      simp [List.length_flatten]
    | some total =>
      rw [hcl] at h
      simp only at h
      cases hsc : setChunks total resp.chunks with
      | none => rw [hsc] at h; exact absurd h (by simp)
      | some b =>
        rw [hsc] at h
        cases h
        simp [setChunks_length hsc]

/-- Witness for `C1_amended_thm`: the header-absent run returns exactly the
3 received bytes, the hypothesis discharged by evaluation. -/
theorem C1_amended_witness :
    downloadModelWithProgress "m" respNoLen
        = DLOutcome.ok [9, 8, 7] [{ percentage := none, loaded := 0, total := 0 }] ∧
      List.length [9, 8, 7] =
        (match respNoLen.contentLength with
         | none => (respNoLen.chunks.map List.length).sum
         | some total => total) := by
  refine ⟨by decide, ?_⟩
  exact C1_amended_thm "m" respNoLen [9, 8, 7]
    [{ percentage := none, loaded := 0, total := 0 }] (by decide)

/-- C9 counterexample: on a failed response the thrown message is
`"Failed to fetch model: " + statusText`; for the request path
`models/efficientdet_lite0.tflite` the message does not contain the path,
contradicting the claim that the message includes both the path and the
status. -/
theorem C9_counterexample :
    downloadModelWithProgress "models/efficientdet_lite0.tflite" respNotFound
        = DLOutcome.fetchError "Failed to fetch model: Not Found" ∧
      occursIn "models/efficientdet_lite0.tflite".toList
          "Failed to fetch model: Not Found".toList = false := by
  refine ⟨by decide, by decide⟩

theorem beginsWith_append (n rest : List Char) : beginsWith (n ++ rest) n = true := by
  induction n with
  | nil => simp [beginsWith]
  | cons h t ih => simp [beginsWith, ih]

theorem occursIn_append_right (pre n : List Char) : occursIn n (pre ++ n) = true := by
  induction pre with
  | nil =>
    cases n with
    | nil => rfl
    | cons h t =>
      show occursIn (h :: t) (h :: t) = true
      have hb : beginsWith (h :: t) (h :: t) = true := by
        have := beginsWith_append (h :: t) []
        simpa using this
      simp [occursIn, hb]
  | cons p ps ih =>
    cases n with
    | nil => simp [occursIn, beginsWith]
    | cons h t => simp [occursIn, ih]

/-- C9 (amended): whenever the response status indicates failure, the fetch
operation fails with an error whose message is
`"Failed to fetch model: " + statusText` — it includes the response status
text, but not the requested path. -/
theorem C9_amended_thm (modelPath : String) (resp : Response)
    (h : resp.ok = false) :
    downloadModelWithProgress modelPath resp
        = DLOutcome.fetchError ("Failed to fetch model: " ++ resp.statusText) ∧
      occursIn resp.statusText.toList
        ("Failed to fetch model: " ++ resp.statusText).toList = true := by
  constructor
  · unfold downloadModelWithProgress
    simp [h]
  · have hdata : ("Failed to fetch model: " ++ resp.statusText).toList
        = "Failed to fetch model: ".toList ++ resp.statusText.toList := by
      simp [String.toList, String.data_append]
    rw [hdata]
    exact occursIn_append_right _ _

/-- Witness for `C9_amended_thm` at the concrete 404 response. -/
theorem C9_amended_witness :
    respNotFound.ok = false ∧
      (downloadModelWithProgress "m" respNotFound
          = DLOutcome.fetchError ("Failed to fetch model: " ++ respNotFound.statusText) ∧
        occursIn respNotFound.statusText.toList
          ("Failed to fetch model: " ++ respNotFound.statusText).toList = true) :=
  ⟨rfl, C9_amended_thm "m" respNotFound rfl⟩

theorem createOrUpdateDetector_fetches (env : AppEnv) (s : St) :
    (createOrUpdateDetector env s).1.fetches = s.fetches + 1 := by
  simp only [createOrUpdateDetector]
  split
  · rfl
  · rfl
  · split
    · rfl
    · rfl

theorem createOrUpdateDetector_ok_inv (env : AppEnv) (s s1 : St)
    (h : createOrUpdateDetector env s = (s1, none)) :
    ∃ buf evs,
      downloadModelWithProgress s.modelSelect (env.net s.modelSelect) = DLOutcome.ok buf evs ∧
      env.buildOk buf = true ∧
      s1 = { s with
        lastModel := s.modelSelect, lastMaxResults := s.maxResultsSlider,
        lastThreshold := s.thresholdSlider, maxResultsValue := s.maxResultsSlider,
        thresholdValue := jsRoundTimes100 s.thresholdSlider,
        fetches := s.fetches + 1,
        progressFired := s.progressFired + evs.length,
        objectDetector := some { id := s.nextId, modelPath := s.modelSelect,
                                 maxResults := s.maxResultsSlider,
                                 scoreThreshold := s.thresholdSlider, buffer := buf },
        nextId := s.nextId + 1 } := by
  simp only [createOrUpdateDetector] at h
  cases hdl : downloadModelWithProgress s.modelSelect (env.net s.modelSelect) with
  | fetchError m => rw [hdl] at h; simp at h
  | rangeError evs => rw [hdl] at h; simp at h
  | ok buf evs =>
    rw [hdl] at h
    by_cases hb : env.buildOk buf = true
    · refine ⟨buf, evs, rfl, hb, ?_⟩
      simp only [hb, if_true, Prod.mk.injEq] at h
      exact h.1.symm
    · simp only [Bool.not_eq_true] at hb
      simp [hb] at h

/-- C2 counterexample: there is no model cache.  With the model selection
unchanged, a second `createOrUpdateDetector` run after a first successful
one performs a second network read (`fetches` goes 1 → 2) and fires the
progress callback again (`progressFired` goes 1 → 2), refuting "zero
network reads, no progress callback" — though the returned bytes are
byte-identical (same buffer, new instance id). -/
theorem C2_counterexample :
    (createOrUpdateDetector envOK st0).2 = none ∧
      (createOrUpdateDetector envOK st0).1.fetches = 1 ∧
      (createOrUpdateDetector envOK st0).1.objectDetector = some builtDetector0 ∧
      (createOrUpdateDetector envOK (createOrUpdateDetector envOK st0).1).1.fetches = 2 ∧
      (createOrUpdateDetector envOK (createOrUpdateDetector envOK st0).1).1.progressFired = 2 ∧
      (createOrUpdateDetector envOK (createOrUpdateDetector envOK st0).1).1.objectDetector
        = some { builtDetector0 with id := 1 } := by
  refine ⟨by decide, by decide, by decide, by decide, by decide, by decide⟩

/-- C2 (amended): every resolution call delegates to the fetcher — a second
call after a first successful one for the same identifier performs exactly
one additional network read (not zero), succeeds again, and returns
byte-identical data because the same fetch is repeated; separately, the
model-change handler skips the rebuild entirely when the selected
identifier equals the last applied one. -/
theorem C2_amended_thm (env : AppEnv) (s s1 : St) (d1 : Detector)
    (h1 : createOrUpdateDetector env s = (s1, none))
    (h2 : s1.objectDetector = some d1) :
    (createOrUpdateDetector env s1).1.fetches = s1.fetches + 1 ∧
      (createOrUpdateDetector env s1).2 = none ∧
      (∃ d2, (createOrUpdateDetector env s1).1.objectDetector = some d2 ∧
        d2.buffer = d1.buffer) ∧
      handleModelChange env s1 = (s1, false) := by
  obtain ⟨buf, evs, hdl, hb, hs1⟩ := createOrUpdateDetector_ok_inv env s s1 h1
  refine ⟨createOrUpdateDetector_fetches env s1, ?_, ?_, ?_⟩
  · subst hs1
    simp only [createOrUpdateDetector]
    rw [hdl]
    simp [hb]
  · subst hs1
    simp only at h2
    simp only [createOrUpdateDetector]
    rw [hdl]
    simp only [hb, if_true]
    refine ⟨_, rfl, ?_⟩
    simp only [Option.some.injEq] at h2
    rw [← h2]
  · subst hs1
    simp [handleModelChange]

/-- Witness for `C2_amended_thm` at the concrete environment. -/
theorem C2_amended_witness :
    (createOrUpdateDetector envOK (createOrUpdateDetector envOK st0).1).1.fetches
        = (createOrUpdateDetector envOK st0).1.fetches + 1 ∧
      (createOrUpdateDetector envOK (createOrUpdateDetector envOK st0).1).2 = none ∧
      (∃ d2, (createOrUpdateDetector envOK (createOrUpdateDetector envOK st0).1).1.objectDetector
          = some d2 ∧ d2.buffer = builtDetector0.buffer) ∧
      handleModelChange envOK (createOrUpdateDetector envOK st0).1
        = ((createOrUpdateDetector envOK st0).1, false) := by
  have h1 : createOrUpdateDetector envOK st0 = ((createOrUpdateDetector envOK st0).1, none) := by
    rw [← (by decide : (createOrUpdateDetector envOK st0).2 = none)]
  exact C2_amended_thm envOK st0 (createOrUpdateDetector envOK st0).1 builtDetector0
    h1 (by decide)

/-- C3 counterexample: two successful rebuilds in a row build instances 0
and 1; the rebuild that replaced instance 0 with instance 1 never disposed
instance 0 — the dispose log stays empty, because the source contains no
dispose/close call. -/
theorem C3_counterexample :
    (createOrUpdateDetector envOK st0).1.objectDetector.map Detector.id = some 0 ∧
      (createOrUpdateDetector envOK (createOrUpdateDetector envOK st0).1).1.objectDetector.map
          Detector.id = some 1 ∧
      (createOrUpdateDetector envOK (createOrUpdateDetector envOK st0).1).1.disposedIds = [] := by
  refine ⟨by decide, by decide, by decide⟩

/-- C3 (amended): at most one instance is published as active (the single
`objectDetector` reference: unchanged on failure, the newly built instance
on success), but a rebuild never disposes the previously active instance —
no dispose call exists in the code, so the dispose log is invariant. -/
theorem C3_amended_thm (env : AppEnv) (s : St) :
    (createOrUpdateDetector env s).1.disposedIds = s.disposedIds ∧
      ((createOrUpdateDetector env s).2 ≠ none →
        (createOrUpdateDetector env s).1.objectDetector = s.objectDetector) ∧
      ((createOrUpdateDetector env s).2 = none →
        ∃ buf, (createOrUpdateDetector env s).1.objectDetector
          = some { id := s.nextId, modelPath := s.modelSelect,
                   maxResults := s.maxResultsSlider, scoreThreshold := s.thresholdSlider,
                   buffer := buf }) := by
  refine ⟨?_, ?_, ?_⟩
  · simp only [createOrUpdateDetector]
    split
    · rfl
    · rfl
    · split
      · rfl
      · rfl
  · simp only [createOrUpdateDetector]
    split
    · intro _; rfl
    · intro _; rfl
    · split
      · intro hc; exact absurd rfl hc
      · intro _; rfl
  · simp only [createOrUpdateDetector]
    split
    · intro hc; exact absurd hc (by simp)
    · intro hc; exact absurd hc (by simp)
    · split
      · intro _; exact ⟨_, rfl⟩
      · intro hc; exact absurd hc (by simp)

/-- Witness for `C3_amended_thm` at the concrete environment. -/
theorem C3_amended_witness :
    (createOrUpdateDetector envOK st0).1.disposedIds = st0.disposedIds ∧
      (∃ buf, (createOrUpdateDetector envOK st0).1.objectDetector
        = some { id := st0.nextId, modelPath := st0.modelSelect,
                 maxResults := st0.maxResultsSlider, scoreThreshold := st0.thresholdSlider,
                 buffer := buf }) :=
  ⟨(C3_amended_thm envOK st0).1, (C3_amended_thm envOK st0).2.2 (by decide)⟩

/-- C4 (confirmed): if the engine construction fails during a rebuild while
a prior detector is active, the published `objectDetector` reference is
unchanged, the error is surfaced to the caller as a build error, and the
next render-loop iteration that processes a frame still draws using the
prior detector's detections. -/
theorem C4_thm (env : AppEnv) (s : St) (d0 : Detector)
    (buf : List Nat) (evs : List ProgressEvent)
    (hdl : downloadModelWithProgress s.modelSelect (env.net s.modelSelect)
      = DLOutcome.ok buf evs)
    (hbuild : env.buildOk buf = false)
    (hprior : s.objectDetector = some d0) :
    (createOrUpdateDetector env s).2 = some RebuildError.buildError ∧
      (createOrUpdateDetector env s).1.objectDetector = some d0 ∧
      ∀ (detect : Detector → ℚ → Int → List Detection) (vw vh : Int) (ct : ℚ) (now : Int)
        (flip : Bool) (ls : LoopSt), ct ≠ ls.lastVideoTime →
        (predictWebcam detect vw vh ct now flip
            ((createOrUpdateDetector env s).1.objectDetector) ls).drawn
          = (detect d0 ct now).map (drawDetection flip vw) := by
  have hod : (createOrUpdateDetector env s).1.objectDetector = some d0 := by
    simp only [createOrUpdateDetector]
    rw [hdl]
    simp [hbuild, hprior]
  have hres : (createOrUpdateDetector env s).2 = some RebuildError.buildError := by
    simp only [createOrUpdateDetector]
    rw [hdl]
    simp [hbuild]
  refine ⟨hres, hod, ?_⟩
  intro detect vw vh ct now flip ls hct
  rw [hod]
  simp [predictWebcam, hct]

/-- Witness for `C4_thm`: concrete failing build with a prior detector. -/
theorem C4_witness :
    (createOrUpdateDetector envBuildFail stPrior).2 = some RebuildError.buildError ∧
      (createOrUpdateDetector envBuildFail stPrior).1.objectDetector = some dummyDetector ∧
      (predictWebcam detectExample 640 480 (mkRat 1 1) 1000 false
          ((createOrUpdateDetector envBuildFail stPrior).1.objectDetector) loopSt0).drawn
        = (detectExample dummyDetector (mkRat 1 1) 1000).map (drawDetection false 640) := by
  have h := C4_thm envBuildFail stPrior dummyDetector [9, 8, 7]
    [{ percentage := none, loaded := 0, total := 0 }] (by decide) (by decide) (by decide)
  exact ⟨h.1, h.2.1, h.2.2 detectExample 640 480 (mkRat 1 1) 1000 false loopSt0 (by decide)⟩

/-- C5 (confirmed): intermediate drag (`input`) events never trigger a
rebuild and change only the slider's own value and its displayed numeric
label; a committed (`change`) event triggers a rebuild exactly when the
committed pair `{maxResults, scoreThreshold}` differs from the last applied
snapshot `(lastMaxResults, lastThreshold)`. -/
theorem C5_thm (env : AppEnv) (s : St) (v : Int) (w : ℚ) :
    sliderEventStep env (SliderEvent.inputMax v) s
        = ({ s with maxResultsSlider := v, maxResultsValue := v }, false) ∧
      sliderEventStep env (SliderEvent.inputThreshold w) s
        = ({ s with thresholdSlider := w, thresholdValue := jsRoundTimes100 w }, false) ∧
      ((sliderEventStep env SliderEvent.changeCommit s).2 = true
        ↔ (s.maxResultsSlider ≠ s.lastMaxResults ∨ s.thresholdSlider ≠ s.lastThreshold)) := by
  refine ⟨rfl, rfl, ?_⟩
  simp only [sliderEventStep, handleSliderChange]
  by_cases h : s.maxResultsSlider ≠ s.lastMaxResults ∨ s.thresholdSlider ≠ s.lastThreshold
  · simp [h]
  · simp [h]

theorem stopAllTracks_allStopped (m : MediaStream) : (stopAllTracks m).allStopped = true := by
  simp [stopAllTracks, MediaStream.allStopped, List.all_map, Function.comp, List.all_eq_true]

theorem allStopped_isLive (m : MediaStream) (h : m.allStopped = true) : m.isLive = false := by
  rcases m with ⟨dev, tracks⟩
  simp only [MediaStream.allStopped] at h
  simp only [MediaStream.isLive]
  induction tracks with
  | nil => rfl
  | cons t ts ih =>
    simp only [List.all_cons, Bool.and_eq_true] at h
    simp [List.any_cons, h.1, ih h.2]

theorem filter_isLive_nil {l : List MediaStream} (h : l.all MediaStream.allStopped = true) :
    l.filter MediaStream.isLive = [] := by
  induction l with
  | nil => rfl
  | cons m ms ih =>
    simp only [List.all_cons, Bool.and_eq_true] at h
    simp [List.filter_cons, allStopped_isLive m h.1, ih h.2]

theorem enableWebcam_ok (env : CamEnv) (s : CamSt) (stream : MediaStream)
    (hgum : env.gum { width := 640, height := 480, deviceId := s.currentDeviceId }
        = Except.ok stream) :
    (enableWebcam env s).currentStream = some stream ∧
      (enableWebcam env s).previousStreams
        = s.previousStreams ++ (s.currentStream.map stopAllTracks).toList ∧
      (enableWebcam env s).acquisitions = s.acquisitions + 1 := by
  unfold enableWebcam webcamAcquirePhase
  rw [show (webcamStopPhase s).currentDeviceId = s.currentDeviceId from rfl, hgum]
  refine ⟨?_, ?_, ?_⟩ <;>
  · unfold webcamSuccess
    by_cases hco : s.cameraOptions.length = 0
    · simp [webcamStopPhase, hco]
    · simp [webcamStopPhase, hco]

theorem enableWebcam_err (env : CamEnv) (s : CamSt) (e : CamError)
    (hgum : env.gum { width := 640, height := 480, deviceId := s.currentDeviceId }
        = Except.error e) :
    enableWebcam env s = webcamFailure e (webcamStopPhase s) := by
  unfold enableWebcam webcamAcquirePhase
  rw [show (webcamStopPhase s).currentDeviceId = s.currentDeviceId from rfl, hgum]

/-- C6 (confirmed): after a successful camera switch every track of the
previous stream is stopped, exactly one stream (the new one) is live, and
structurally the stop of the old tracks happens before the acquisition
call: `enableWebcam` is the acquisition phase applied to the state produced
by the stop phase, which has already stopped every track of the current
stream. -/
theorem C6_thm (env : CamEnv) (s : CamSt) (old stream : MediaStream) (selected : String)
    (hold : s.currentStream = some old)
    (hprev : s.previousStreams.all MediaStream.allStopped = true)
    (hgum : env.gum { width := 640, height := 480, deviceId := some selected }
        = Except.ok stream)
    (hlive : stream.isLive = true) :
    (switchCamera env selected s).currentStream = some stream ∧
      (switchCamera env selected s).previousStreams
        = s.previousStreams ++ [stopAllTracks old] ∧
      (stopAllTracks old).allStopped = true ∧
      liveStreamCount (switchCamera env selected s) = 1 ∧
      (∀ t : CamSt, enableWebcam env t = webcamAcquirePhase env (webcamStopPhase t)) ∧
      (∀ t : CamSt, (webcamStopPhase t).currentStream = t.currentStream.map stopAllTracks) := by
  have hsb := enableWebcam_ok env
    { s with currentDeviceId := some selected, overlayVisible := true,
             isVideoFlipped := facingIsUser (findDevice env.devices selected) } stream hgum
  have hcs : (switchCamera env selected s).currentStream = some stream := hsb.1
  have hps : (switchCamera env selected s).previousStreams
      = s.previousStreams ++ [stopAllTracks old] := by
    show (enableWebcam env
        { s with
          currentDeviceId := some selected, overlayVisible := true,
          isVideoFlipped := facingIsUser (findDevice env.devices selected) }).previousStreams
      = s.previousStreams ++ [stopAllTracks old]
    rw [hsb.2.1]
    show s.previousStreams ++ (Option.map stopAllTracks s.currentStream).toList
      = s.previousStreams ++ [stopAllTracks old]
    rw [hold]
    rfl
  have hlc : liveStreamCount (switchCamera env selected s) = 1 := by
    unfold liveStreamCount CamSt.allStreams
    rw [hps, hcs]
    simp [List.filter_append, filter_isLive_nil hprev, List.filter_cons,
          allStopped_isLive _ (stopAllTracks_allStopped old), hlive]
  exact ⟨hcs, hps, stopAllTracks_allStopped old, hlc, fun t => rfl, fun t => rfl⟩

/-- Witness for `C6_thm`: switching from camera A to camera B. -/
theorem C6_witness :
    (switchCamera camEnvOK "camB" camSt0).currentStream = some streamB ∧
      (switchCamera camEnvOK "camB" camSt0).previousStreams
        = camSt0.previousStreams ++ [stopAllTracks streamA] ∧
      (stopAllTracks streamA).allStopped = true ∧
      liveStreamCount (switchCamera camEnvOK "camB" camSt0) = 1 ∧
      enableWebcam camEnvOK camSt0 = webcamAcquirePhase camEnvOK (webcamStopPhase camSt0) ∧
      (webcamStopPhase camSt0).currentStream = camSt0.currentStream.map stopAllTracks := by
  have h := C6_thm camEnvOK camSt0 streamA streamB "camB" (by rfl) (by rfl) (by rfl) (by rfl)
  exact ⟨h.1, h.2.1, h.2.2.1, h.2.2.2.1, h.2.2.2.2.1 camSt0, h.2.2.2.2.2 camSt0⟩

/-- C8 (confirmed): a permission-denied acquisition failure shows the
dedicated permission overlay and leaves the generic loader text untouched
with the loader hidden; every other failure takes the generic path (error
text in the loader, overlay untouched); and one click of the retry button
re-invokes `getUserMedia` exactly once. -/
theorem C8_thm (env : CamEnv) (s : CamSt) (e : CamError)
    (hgum : env.gum { width := 640, height := 480, deviceId := s.currentDeviceId }
        = Except.error e) :
    (if e.name = "NotAllowedError" ∨ e.name = "PermissionDeniedError" then
        (enableWebcam env s).permissionOverlayVisible = true ∧
          (enableWebcam env s).loadingVisible = false ∧
          (enableWebcam env s).loadingMessage = s.loadingMessage
      else
        (enableWebcam env s).loadingVisible = true ∧
          (enableWebcam env s).loadingMessage
            = "Could not access webcam: " ++ e.message
              ++ ". Please check device and permissions." ∧
          (enableWebcam env s).permissionOverlayVisible = s.permissionOverlayVisible) ∧
      (permissionButtonClick env s).acquisitions = s.acquisitions + 1 := by
  constructor
  · have heq := enableWebcam_err env s e hgum
    rw [heq]
    unfold webcamFailure
    by_cases hn : e.name = "NotAllowedError" ∨ e.name = "PermissionDeniedError"
    · rw [if_pos hn, if_pos hn]
      exact ⟨rfl, rfl, rfl⟩
    · rw [if_neg hn, if_neg hn]
      exact ⟨rfl, rfl, rfl⟩
  · have heq2 := enableWebcam_err env
      { s with permissionOverlayVisible := false,
               loadingMessage := "Requesting camera permission...",
               loadingVisible := true } e hgum
    unfold permissionButtonClick
    rw [heq2]
    unfold webcamFailure
    split
    · rfl
    · rfl

/-- Witness for `C8_thm`: the platform denies permission. -/
theorem C8_witness :
    ((enableWebcam camEnvDenied camSt0).permissionOverlayVisible = true ∧
        (enableWebcam camEnvDenied camSt0).loadingVisible = false ∧
        (enableWebcam camEnvDenied camSt0).loadingMessage = camSt0.loadingMessage) ∧
      (permissionButtonClick camEnvDenied camSt0).acquisitions = camSt0.acquisitions + 1 := by
  have h := C8_thm camEnvDenied camSt0
    { name := "NotAllowedError", message := "Permission denied" } (by rfl)
  refine ⟨?_, h.2⟩
  have h1 := h.1
  rw [if_pos (Or.inl rfl)] at h1
  exact h1

/-- C10 (confirmed, implicit claim): `enableWebcam` stops every track of
the current stream unconditionally before attempting the new acquisition,
so when the acquisition fails no stream is live afterwards — there is no
roll-back — and `currentStream` still references the old, already-stopped
stream object. -/
theorem C10_thm (env : CamEnv) (s : CamSt) (old : MediaStream) (e : CamError)
    (hold : s.currentStream = some old)
    (hprev : s.previousStreams.all MediaStream.allStopped = true)
    (hgum : env.gum { width := 640, height := 480, deviceId := s.currentDeviceId }
        = Except.error e) :
    (enableWebcam env s).currentStream = some (stopAllTracks old) ∧
      (stopAllTracks old).allStopped = true ∧
      (enableWebcam env s).previousStreams = s.previousStreams ∧
      liveStreamCount (enableWebcam env s) = 0 ∧
      (enableWebcam env s).acquisitions = s.acquisitions + 1 := by
  have heq := enableWebcam_err env s e hgum
  have hcs : (enableWebcam env s).currentStream = some (stopAllTracks old) := by
    rw [heq]
    unfold webcamFailure
    split
    · show s.currentStream.map stopAllTracks = some (stopAllTracks old)
      rw [hold]; rfl
    · show s.currentStream.map stopAllTracks = some (stopAllTracks old)
      rw [hold]; rfl
  have hps : (enableWebcam env s).previousStreams = s.previousStreams := by
    rw [heq]
    unfold webcamFailure
    split
    · rfl
    · rfl
  have hlc : liveStreamCount (enableWebcam env s) = 0 := by
    unfold liveStreamCount CamSt.allStreams
    rw [hcs, hps]
    simp [List.filter_append, filter_isLive_nil hprev, List.filter_cons,
          allStopped_isLive _ (stopAllTracks_allStopped old)]
  have hacq : (enableWebcam env s).acquisitions = s.acquisitions + 1 := by
    rw [heq]
    unfold webcamFailure
    split
    · rfl
    · rfl
  exact ⟨hcs, stopAllTracks_allStopped old, hps, hlc, hacq⟩

/-- Witness for `C10_thm`: acquisition of a missing device fails after the
old stream was already stopped. -/
theorem C10_witness :
    (enableWebcam camEnvOK camSt0).currentStream = some (stopAllTracks streamA) ∧
      (stopAllTracks streamA).allStopped = true ∧
      (enableWebcam camEnvOK camSt0).previousStreams = camSt0.previousStreams ∧
      liveStreamCount (enableWebcam camEnvOK camSt0) = 0 ∧
      (enableWebcam camEnvOK camSt0).acquisitions = camSt0.acquisitions + 1 :=
  C10_thm camEnvOK camSt0 streamA
    { name := "NotFoundError", message := "Requested device not found" }
    (by rfl) (by rfl) (by rfl)

/-- C7 (confirmed): whenever the render loop processes a frame with a
published detector, each detection is drawn at
`displayX = surfaceWidth - originX - width` when the flip state is on and
at `displayX = originX` otherwise, with the surface width synced to the
video's width. -/
theorem C7_thm (detect : Detector → ℚ → Int → List Detection) (vw vh : Int) (ct : ℚ)
    (now : Int) (flip : Bool) (d : Detector) (ls : LoopSt)
    (hct : ct ≠ ls.lastVideoTime) :
    (predictWebcam detect vw vh ct now flip (some d) ls).drawn
        = (detect d ct now).map (drawDetection flip vw) ∧
      ∀ det : Detection, (drawDetection flip vw det).x
        = if flip then vw - det.boundingBox.originX - det.boundingBox.width
          else det.boundingBox.originX := by
  constructor
  · simp [predictWebcam, hct]
  · intro det; rfl

/-- Witness for `C7_thm`, including the spec's example: originX 10, width
50 on a 640-wide surface gives display x 580 flipped and 10 unflipped. -/
theorem C7_witness :
    (mkRat 1 1 : ℚ) ≠ loopSt0.lastVideoTime ∧
      (predictWebcam detectExample 640 480 (mkRat 1 1) 1000 true (some dummyDetector)
          loopSt0).drawn
        = (detectExample dummyDetector (mkRat 1 1) 1000).map (drawDetection true 640) ∧
      (drawDetection true 640 detExample).x = 580 ∧
      (drawDetection false 640 detExample).x = 10 := by
  have h := C7_thm detectExample 640 480 (mkRat 1 1) 1000 true dummyDetector loopSt0 (by decide)
  exact ⟨by decide, h.1, by decide, by decide⟩
